import Mathlib

/-!
Shallow embedding of `src/update_remove_headers.py` (traefik-owasp-updaters).

Modelling conventions, fixed once for the whole development:

* Text is modelled as `List Char` (`Str`); a file's content is its list of
  lines (each line without the trailing newline that the Python file
  iterator keeps — no claim depends on a pattern spanning a line boundary
  via that newline, and the watcher's own joins use an explicit newline
  character exactly as the source does).
* The file system is an association list from path strings to line lists.
* Python `datetime.datetime` values produced by
  `strptime(_, "%Y-%m-%d %H:%M:%S")` are modelled as `PyDateTime`
  (second precision, no timezone); `datetime.fromtimestamp(0)` is the
  epoch sentinel `1970-01-01 00:00:00`.
* Timestamps parsed from the traefik log by `fromisoformat` are abstracted
  to integers (`Int`), since the watcher only ever compares them; whether a
  given log line's first whitespace-delimited token parses is part of the
  modelled input (`LogLine.ts`).
* `subprocess` results, `curl` availability and `time.time()` samples are
  oracle inputs of one run (`RunInput`).
-/

namespace TraefikOwasp

abbrev Str := List Char

/-- The character of a decimal digit `n % 10` (used to model Python's
zero-padded `%d` rendering of datetime components). -/
def dChar (n : Nat) : Char :=
match n % 10 with
| 0 => '0'
| 1 => '1'
| 2 => '2'
| 3 => '3'
| 4 => '4'
| 5 => '5'
| 6 => '6'
| 7 => '7'
| 8 => '8'
| _ => '9'

/-- Model of Python `datetime.datetime` restricted to the precision this
program uses (`%Y-%m-%d %H:%M:%S`). -/
structure PyDateTime where
  year : Nat
  month : Nat
  day : Nat
  hour : Nat
  minute : Nat
  second : Nat
deriving DecidableEq, Repr

/-- Model of `datetime.fromtimestamp(0)`: the epoch sentinel returned by
`get_date_from_yaml_config` when no parseable marker line is found. -/
def epochDT : PyDateTime := ⟨1970, 1, 1, 0, 0, 0⟩

/-- Days in a month, with Python's Gregorian leap-year rule; the
`datetime` constructor validates the day against this. -/
def daysInMonth (y m : Nat) : Nat :=
match m with
| 1 => 31
| 2 => if y % 4 = 0 ∧ (y % 100 ≠ 0 ∨ y % 400 = 0) then 29 else 28
| 3 => 31
| 4 => 30
| 5 => 31
| 6 => 30
| 7 => 31
| 8 => 31
| 9 => 30
| 10 => 31
| 11 => 30
| 12 => 31
| _ => 0

/-- The range checks Python's `datetime` constructor performs
(`MINYEAR = 1`, `MAXYEAR = 9999`). -/
def validB (d : PyDateTime) : Bool :=
decide (1 ≤ d.year) && decide (d.year ≤ 9999) &&
decide (1 ≤ d.month) && decide (d.month ≤ 12) &&
decide (1 ≤ d.day) && decide (d.day ≤ daysInMonth d.year d.month) &&
decide (d.hour ≤ 23) && decide (d.minute ≤ 59) && decide (d.second ≤ 59)

/-- Python `datetime` comparison (`>=` at line 161 of the source):
lexicographic on (year, month, day, hour, minute, second).
`dtLe a b` models `a <= b`. -/
def dtLe (a b : PyDateTime) : Bool :=
if a.year ≠ b.year then decide (a.year < b.year)
else if a.month ≠ b.month then decide (a.month < b.month)
else if a.day ≠ b.day then decide (a.day < b.day)
else if a.hour ≠ b.hour then decide (a.hour < b.hour)
else if a.minute ≠ b.minute then decide (a.minute < b.minute)
else decide (a.second ≤ b.second)

/-- Rendering `str(datetime)` for a microsecond-free value: zero-padded
`YYYY-MM-DD HH:MM:SS` (19 characters), as interpolated by
`f"# Updated on: {remove_headers.last_update_utc}"`. -/
def dtChars (d : PyDateTime) : Str :=
[dChar (d.year / 1000), dChar (d.year / 100), dChar (d.year / 10), dChar d.year,
 '-', dChar (d.month / 10), dChar d.month,
 '-', dChar (d.day / 10), dChar d.day,
 ' ', dChar (d.hour / 10), dChar d.hour,
 ':', dChar (d.minute / 10), dChar d.minute,
 ':', dChar (d.second / 10), dChar d.second]

/-- Numeric value of a digit character (how `int()` reads one matched
digit). -/
def digVal (c : Char) : Nat := c.toNat - 48

/-- Structural part of `datetime.strptime(s, "%Y-%m-%d %H:%M:%S")`:
a 4-digit year, then month/day/hour/minute/second as 1-2 digit runs with
the literal separators, consuming the whole string.  Field-range and
calendar validation is applied on top by `strptime`. -/
def rawParse (s : Str) : Option PyDateTime :=
let yds := s.takeWhile Char.isDigit
if yds.length = 4 then
  match s.dropWhile Char.isDigit with
  | '-' :: r1 =>
    let mds := r1.takeWhile Char.isDigit
    if mds.length = 1 ∨ mds.length = 2 then
      match r1.dropWhile Char.isDigit with
      | '-' :: r2 =>
        let dds := r2.takeWhile Char.isDigit
        if dds.length = 1 ∨ dds.length = 2 then
          match r2.dropWhile Char.isDigit with
          | ' ' :: r3 =>
            let hds := r3.takeWhile Char.isDigit
            if hds.length = 1 ∨ hds.length = 2 then
              match r3.dropWhile Char.isDigit with
              | ':' :: r4 =>
                let mins := r4.takeWhile Char.isDigit
                if mins.length = 1 ∨ mins.length = 2 then
                  match r4.dropWhile Char.isDigit with
                  | ':' :: r5 =>
                    let sds := r5.takeWhile Char.isDigit
                    if (sds.length = 1 ∨ sds.length = 2) ∧
                        r5.dropWhile Char.isDigit = [] then
                      some ⟨yds.foldl (fun a c => a * 10 + digVal c) 0,
                            mds.foldl (fun a c => a * 10 + digVal c) 0,
                            dds.foldl (fun a c => a * 10 + digVal c) 0,
                            hds.foldl (fun a c => a * 10 + digVal c) 0,
                            mins.foldl (fun a c => a * 10 + digVal c) 0,
                            sds.foldl (fun a c => a * 10 + digVal c) 0⟩
                    else none
                  | _ => none
                else none
              | _ => none
            else none
          | _ => none
        else none
      | _ => none
    else none
  | _ => none
else none

/-- Model of `datetime.strptime(s, "%Y-%m-%d %H:%M:%S")`: `some` on success,
`none` when the call raises `ValueError` (shape mismatch, field out of
range, or an invalid calendar date rejected by the constructor). -/
def strptime (s : Str) : Option PyDateTime :=
(rawParse s).bind (fun d => if validB d then some d else none)

/-- Python `str.strip()` on the marker line's remainder: drop leading and
trailing whitespace. -/
def dropTrailingWS : Str → Str
| [] => []
| c :: cs =>
  match dropTrailingWS cs with
  | [] => if c.isWhitespace then [] else [c]
  | r => c :: r

def pyStrip (s : Str) : Str :=
dropTrailingWS (s.dropWhile Char.isWhitespace)

/-- The constant `UPDATE_STRING` of `get_date_from_yaml_config` (also the prefix the
writer emits at line 114 of the source). -/
def UPDATE_STRING : Str := String.toList "# Updated on: "

/-- First line written by `write_yaml_config`. -/
def GENERATED_LINE : Str :=
String.toList "# DO NOT MODIFY. THIS FILE IS GENERATED FROM https://owasp.org/www-project-secure-headers/ci/headers_remove.json"

/-- The loop of `get_date_from_yaml_config` over the file's lines: the
first line starting with the marker whose remainder parses wins (`break`);
a marker line that fails to parse logs and continues; if none parses the
default `epochDT` set at line 78 is returned. -/
def get_date_from_lines : List Str → PyDateTime
| [] => epochDT
| l :: ls =>
  if UPDATE_STRING <+: l then
    match strptime (pyStrip (l.drop UPDATE_STRING.length)) with
    | some d => d
    | none => get_date_from_lines ls
  else get_date_from_lines ls

/-- The validated remote data (`RemoveHeaders` after `__init__`):
`last_update_utc` and `headers` properties. -/
structure HeaderSet where
  last_update_utc : PyDateTime
  headers : List Str
deriving DecidableEq, Repr

/-- Lines emitted by `write_yaml_config`: row `i` of `string_2d` is
rendered with `2 * i` leading spaces. -/
def write_yaml_lines (middleware_name : Str) (rh : HeaderSet) : List Str :=
[GENERATED_LINE,
 UPDATE_STRING ++ dtChars rh.last_update_utc,
 String.toList "http:",
 String.toList "  middlewares:",
 String.toList "    " ++ middleware_name ++ [':'],
 String.toList "      headers:",
 String.toList "        customResponseHeaders:"]
++ rh.headers.map (fun h => String.toList "          " ++ h ++ String.toList ": " ++ ['\"', '\"'])

/-- The Python exceptions this program can raise or catch, by class.
Messages are irrelevant to the claims and are omitted. -/
inductive PyError where
  /-- Python `ValueError` (also covers `json.JSONDecodeError`, its subclass). -/
  | valueError : PyError
  /-- Python `KeyError` from a `data[...]` lookup on a missing key. -/
  | keyError : PyError
  /-- Python `RuntimeError` raised by the log-watching loop on a detected
  regression (source line 227). -/
  | runtimeError : PyError
  /-- Python `FileNotFoundError` from `open()` on a missing file. -/
  | fileNotFound : PyError
  /-- Python `subprocess.CalledProcessError` from `check_returncode()`. -/
  | calledProcessError : PyError
deriving DecidableEq, Repr

/-- The fetched JSON body after `json.loads`, restricted to the two keys
the program reads.  The outer `Option` is key presence (`none` = the key
is absent, so `data[k]` raises `KeyError`); the inner `Option` is JSON
`null` versus a value of the expected type. -/
structure RawBody where
  last_update_utc : Option (Option Str)
  headers : Option (Option (List Str))
deriving DecidableEq, Repr

/-- Model of `RemoveHeaders.__init__(data_str)` after a successful `json.loads`:
check `last_update_utc` for `None` then `strptime` it, then check
`headers` for `None`; field lookups on absent keys raise `KeyError`. -/
def removeHeadersInit (b : RawBody) : Except PyError HeaderSet :=
match b.last_update_utc with
| none => .error .keyError
| some none => .error .valueError
| some (some s) =>
  match strptime s with
  | none => .error .valueError
  | some d =>
    match b.headers with
    | none => .error .keyError
    | some none => .error .valueError
    | some (some hs) => .ok ⟨d, hs⟩

instance {ε α : Type} [DecidableEq ε] [DecidableEq α] :
    DecidableEq (Except ε α) := fun x y =>
  match x, y with
  | .ok a, .ok b =>
    if h : a = b then isTrue (by rw [h]) else isFalse (fun hh => h (Except.ok.inj hh))
  | .ok _, .error _ => isFalse (fun hh => nomatch hh)
  | .error _, .ok _ => isFalse (fun hh => nomatch hh)
  | .error e, .error f =>
    if h : e = f then isTrue (by rw [h]) else isFalse (fun hh => h (Except.error.inj hh))

/-- The file system: path → lines.  Paths are plain strings. -/
abbrev FS := List (String × List Str)

def fsGet (fs : FS) (p : String) : Option (List Str) :=
match fs with
| [] => none
| (q, v) :: rest => if q = p then some v else fsGet rest p

def fsSet (fs : FS) (p : String) (v : List Str) : FS :=
match fs with
| [] => [(p, v)]
| (q, w) :: rest => if q = p then (q, v) :: rest else (q, w) :: fsSet rest p v

def fsRemove (fs : FS) (p : String) : FS :=
match fs with
| [] => []
| (q, w) :: rest => if q = p then fsRemove rest p else (q, w) :: fsRemove rest p

/-- Model of `config.config_path.name`: the basename of the path. -/
def pathName (p : String) : Str :=
((p.toList.reverse.takeWhile (fun c => c ≠ '/')).reverse)

/-- The fields of `Config` that `main` reads.  Constructor-time validation
(`Config.__init__`) is not modelled; a `Config` value here is one that
passed it. -/
structure Config where
  config_path : String
  middleware_header : Str
  restart_traefik : Bool
  traefik_restart_cmd : Str
  wait_for_errors_time : Nat
  traefik_log : Option String
deriving Repr

/-- One line read from the traefik log.  `ts` is `some t` when
`datetime.fromisoformat(line.split()[0].strip())` succeeds, with the
instant abstracted to an integer (the watcher only compares instants);
`text` is the line as iterated. -/
structure LogLine where
  ts : Option Int
  text : Str
deriving Repr

/-- Python's substring test `pat in s`. -/
def strContains (s pat : Str) : Bool := decide (pat <:+: s)

def ERR_MARKER : Str := String.toList "ERR"

/-- One iteration of the inner `for line in f` loop (source lines
207-229), acting on the accumulated `log_msg`.  A line whose first token
parses as a timestamp starts a new record and is immediately checked; an
unparseable line is appended to `log_msg` and the check is skipped
(`continue`).  `.error` models the `raise RuntimeError`. -/
def scanStep (t0 : Int) (mw fname : Str) (logMsg : Str) (ln : LogLine) :
    Except PyError Str :=
match ln.ts with
| none => .ok (logMsg ++ '\n' :: ln.text)
| some t =>
  let m := ln.text
  if decide (t0 ≤ t) && strContains m ERR_MARKER &&
      (strContains m mw || strContains m fname) then
    .error .runtimeError
  else .ok m

/-- The inner `for line in f` loop over the lines available in one pass. -/
def scanLines (t0 : Int) (mw fname : Str) : Str → List LogLine → Except PyError Str
| logMsg, [] => .ok logMsg
| logMsg, ln :: rest =>
  match scanStep t0 mw fname logMsg ln with
  | .error e => .error e
  | .ok m => scanLines t0 mw fname m rest

/-- Outcome of the log-watching loop, with the number of inner scan
passes performed. -/
inductive WatchOutcome where
  | clean : Nat → WatchOutcome
  | regression : Nat → WatchOutcome
  /-- Model artifact: the supply of observation steps (`fuel`) ran out
  while the wall-clock condition still held.  The real loop always exits
  because the clock eventually passes `end_time`. -/
  | fuelOut : WatchOutcome
deriving DecidableEq, Repr

/-- The outer `while time.time() <= end_time or wait_for_errors_time == 0`
loop (source lines 206-232).  `times k` is the `time.time()` sample of
check `k`; `batches k` the lines newly available to the file iterator in
pass `k`; `k` counts completed passes; `logMsg` persists across passes. -/
def watchLoop (t0 : Int) (mw fname : Str) (wait : Nat) (endTime : Int)
    (times : Nat → Int) (batches : Nat → List LogLine) :
    Nat → Nat → Str → WatchOutcome
| 0, _, _ => .fuelOut
| fuel + 1, k, logMsg =>
  if decide (times k ≤ endTime) || decide (wait = 0) then
    match scanLines t0 mw fname logMsg (batches k) with
    | .error _ => .regression (k + 1)
    | .ok m =>
      if wait = 0 then .clean (k + 1)
      else watchLoop t0 mw fname wait endTime times batches fuel (k + 1) m
  else .clean k

/-- External-world oracles of one `main(config)` run. -/
structure RunInput where
  /-- Result of `curl.command_exists()` (true ⇔ the tool is missing, making line
  136 return 1; the source's inverted naming is preserved in behavior). -/
  curl_missing : Bool
  /-- Result of `curl.get_data(URL)` followed by `json.loads`: `none` models the
  empty-output failure path of line 140. -/
  fetched : Option RawBody
  /-- Whether the forward restart (line 194-195) exits with code 0. -/
  restart_ok : Bool
  /-- Value of `timestamp_before_writing` (line 184). -/
  t0 : Int
  /-- Value of `end_time` (line 203). -/
  endTime : Int
  times : Nat → Int
  batches : Nat → List LogLine
  fuel : Nat

/-- Observable outcome of one `main(config)` run. -/
structure RunResult where
  /-- Outcome `.ok n`: `main` returned `n`; `.error e`: the exception `e`
  propagated out of `main` uncaught. -/
  ret : Except PyError Nat
  fs : FS
  /-- Number of `write_yaml_config` executions. -/
  writes : Nat
  /-- Whether `tempfile.TemporaryDirectory()` was created (line 157). -/
  tmpCreated : Bool
  /-- Whether `tmp_dir.cleanup()` was explicitly called before `main`
  returned (line 255). -/
  tmpCleaned : Bool
  /-- Whether the `except` block of line 237 ran (rollback). -/
  rolledBack : Bool
  /-- The exception that triggered the rollback, when one did. -/
  origError : Option PyError
deriving Repr

/-- The `except Exception` block (source lines 237-252): remove the newly
written config, copy the snapshot back when one was taken, re-invoke the
restart command best-effort (its result is ignored); control then falls
through to the cleanup and `return 0` of lines 254-258. -/
def rollbackResult (cfg : Config) (fs1 : FS) (snapshot : Option (List Str))
    (e : PyError) : RunResult :=
  let fs2 := fsRemove fs1 cfg.config_path
  let fs3 := match snapshot with
    | some c => fsSet fs2 cfg.config_path c
    | none => fs2
  ⟨.ok 0, fs3, 1, snapshot.isSome, snapshot.isSome, true, some e⟩

/-- The `try` block of `main` (source lines 180-235): write the new
document, optionally restart, optionally watch the log; any raised
exception lands in `rollbackResult`. -/
def runUpdate (cfg : Config) (inp : RunInput) (fs0 : FS) (web : HeaderSet)
    (snapshot : Option (List Str)) : RunResult :=
  let fs1 := fsSet fs0 cfg.config_path (write_yaml_lines cfg.middleware_header web)
  if cfg.restart_traefik && !inp.restart_ok then
    rollbackResult cfg fs1 snapshot .calledProcessError
  else
    match cfg.traefik_log with
    | none => ⟨.ok 0, fs1, 1, snapshot.isSome, snapshot.isSome, false, none⟩
    | some _ =>
      match watchLoop inp.t0 cfg.middleware_header (pathName cfg.config_path)
          cfg.wait_for_errors_time inp.endTime inp.times inp.batches inp.fuel 0 [] with
      | .regression _ => rollbackResult cfg fs1 snapshot .runtimeError
      | _ => ⟨.ok 0, fs1, 1, snapshot.isSome, snapshot.isSome, false, none⟩

/-- Model of `main(config)` (source lines 131-258). -/
def mainRun (cfg : Config) (inp : RunInput) (fs0 : FS) : RunResult :=
  if inp.curl_missing then ⟨.ok 1, fs0, 0, false, false, false, none⟩
  else
    match inp.fetched with
    | none => ⟨.ok 1, fs0, 0, false, false, false, none⟩
    | some body =>
      match removeHeadersInit body with
      | .error .valueError => ⟨.ok 1, fs0, 0, false, false, false, none⟩
      | .error e => ⟨.error e, fs0, 0, false, false, false, none⟩
      | .ok web =>
        match fsGet fs0 cfg.config_path with
        | some content =>
          if dtLe web.last_update_utc (get_date_from_lines content) then
            ⟨.ok 0, fs0, 0, true, false, false, none⟩
          else
            runUpdate cfg inp fs0 web (some content)
        | none => runUpdate cfg inp fs0 web none

/-- Model of `get_date_from_yaml_config(path)` at the file-system level: `open()`
on a missing path raises `FileNotFoundError` (there is no handler in the
function); otherwise the line scan of `get_date_from_lines` runs. -/
def get_date_from_yaml_config (fs : FS) (p : String) : Except PyError PyDateTime :=
match fsGet fs p with
| none => .error .fileNotFound
| some lines => .ok (get_date_from_lines lines)

/-- Spec-side characterization of the reader's scan: the first marker
line whose remainder parses, if any. -/
def firstParsedMarker (lines : List Str) : Option PyDateTime :=
(lines.filterMap (fun l =>
  if UPDATE_STRING <+: l then strptime (pyStrip (l.drop UPDATE_STRING.length))
  else none)).head?

/-- A multi-line log record as the spec describes it: a first line whose
leading token is a timestamp, plus continuation lines. -/
structure LogRecord where
  ts : Int
  firstLine : Str
  contLines : List Str

/-- The record's accumulated text, joined exactly as the watcher joins
lines (`log_msg += f"\n{line}"`). -/
def recordText (r : LogRecord) : Str :=
r.contLines.foldl (fun a l => a ++ '\n' :: l) r.firstLine

/-- Spec-side classification: a record is a regression signal iff its
leading timestamp is ≥ T0 and its text contains the error marker and the
middleware identifier or the document's filename. -/
def isRegressionSignal (t0 : Int) (mw fname : Str) (r : LogRecord) : Bool :=
decide (t0 ≤ r.ts) && strContains (recordText r) ERR_MARKER &&
  (strContains (recordText r) mw || strContains (recordText r) fname)

/-- The record as the sequence of lines the watcher reads. -/
def recordLines (r : LogRecord) : List LogLine :=
⟨some r.ts, r.firstLine⟩ :: r.contLines.map (fun l => ⟨none, l⟩)

/-! Concrete example scenarios used by counterexamples and witnesses. -/

/-- A well-formed fetched body: version `2025-01-01 00:00:00`, one header. -/
def exBody : RawBody :=
⟨some (some (String.toList "2025-01-01 00:00:00")), some (some [String.toList "X-A"])⟩

/-- The `HeaderSet` that validating `exBody` produces. -/
def exWeb : HeaderSet := ⟨⟨2025, 1, 1, 0, 0, 0⟩, [String.toList "X-A"]⟩

/-- A fetched body whose `last_update_utc` key is absent. -/
def exBodyMissingKey : RawBody := ⟨none, some (some [String.toList "X-A"])⟩

/-- A fetched body whose `last_update_utc` is JSON `null`. -/
def exBodyNullDate : RawBody := ⟨some none, some (some [String.toList "X-A"])⟩

def exOldLines : List Str := [String.toList "# Updated on: 2020-01-01 00:00:00"]

def exNewLines : List Str := [String.toList "# Updated on: 2030-01-01 00:00:00"]

def exFsOld : FS := [("h.yml", exOldLines)]

def exFsNew : FS := [("h.yml", exNewLines)]

/-- A configuration with restart enabled and no log monitoring. -/
def cfgRestart : Config :=
⟨"h.yml", String.toList "mw", true, String.toList "systemctl restart traefik.service", 5, none⟩

/-- A configuration with neither restart nor log monitoring. -/
def cfgPlain : Config :=
⟨"h.yml", String.toList "mw", false, String.toList "systemctl restart traefik.service", 5, none⟩

/-- A run whose forward restart command exits non-zero. -/
def inpFailRestart : RunInput :=
⟨false, some exBody, false, 0, 0, fun _ => 0, fun _ => [], 3⟩

/-- A run in which every external step succeeds. -/
def inpOk : RunInput :=
⟨false, some exBody, true, 0, 0, fun _ => 0, fun _ => [], 3⟩

/-- A run that fetches `exBodyMissingKey`. -/
def inpMissingKey : RunInput :=
⟨false, some exBodyMissingKey, true, 0, 0, fun _ => 0, fun _ => [], 3⟩

/-- A run that fetches `exBodyNullDate`. -/
def inpNullDate : RunInput :=
⟨false, some exBodyNullDate, true, 0, 0, fun _ => 0, fun _ => [], 3⟩

/-- A two-line record: timestamped, non-matching first line; the error
marker and middleware identifier only on the continuation line. -/
def recMultiline : LogRecord :=
⟨10, String.toList "2100-01-01T00:00:00+00:00 INF ok", [String.toList "ERR mw broke"]⟩

/-- A document whose first marker line is unparseable and whose second
marker line parses. -/
def badThenGood : List Str :=
[String.toList "# Updated on: garbage", String.toList "# Updated on: 2025-01-01 00:00:00"]

section Helpers

theorem digVal_dChar (n : Nat) : digVal (dChar n) = n % 10 := by
  rcases h : n % 10 with _ | _ | _ | _ | _ | _ | _ | _ | _ | m
  all_goals first
    | (unfold dChar; rw [h]; decide)
    | (have hm : m = 0 := by omega
       subst hm; unfold dChar; rw [h]; decide)

theorem isDigit_dChar (n : Nat) : (dChar n).isDigit = true := by
  rcases h : n % 10 with _ | _ | _ | _ | _ | _ | _ | _ | _ | m
  all_goals first
    | (unfold dChar; rw [h]; decide)
    | (have hm : m = 0 := by omega
       subst hm; unfold dChar; rw [h]; decide)

theorem not_ws_dChar (n : Nat) : (dChar n).isWhitespace = false := by
  rcases h : n % 10 with _ | _ | _ | _ | _ | _ | _ | _ | _ | m
  all_goals first
    | (unfold dChar; rw [h]; decide)
    | (have hm : m = 0 := by omega
       subst hm; unfold dChar; rw [h]; decide)

theorem pyStrip_dtChars (d : PyDateTime) : pyStrip (dtChars d) = dtChars d := by
  unfold pyStrip dtChars
  simp [dropTrailingWS, not_ws_dChar]

theorem daysInMonth_le (y m : Nat) : daysInMonth y m ≤ 31 := by
  unfold daysInMonth
  split <;> first | omega | (split <;> omega)

theorem rawParse_dtChars (d : PyDateTime) (h : validB d = true) :
    rawParse (dtChars d) = some d := by
  obtain ⟨y, mo, dy, hh, mi, ss⟩ := d
  simp only [validB, Bool.and_eq_true, decide_eq_true_eq] at h
  obtain ⟨⟨⟨⟨⟨⟨⟨⟨h1, h2⟩, h3⟩, h4⟩, h5⟩, h6⟩, h7⟩, h8⟩, h9⟩ := h
  have hdm := daysInMonth_le y mo
  unfold rawParse dtChars
  simp [List.takeWhile, List.dropWhile, isDigit_dChar, digVal_dChar]
  refine ⟨by omega, by omega, by omega, by omega, by omega, by omega⟩

theorem strptime_dtChars (d : PyDateTime) (h : validB d = true) :
    strptime (dtChars d) = some d := by
  unfold strptime
  rw [rawParse_dtChars d h]
  show (if validB d = true then some d else none) = some d
  rw [if_pos h]

theorem strptime_valid {s : Str} {d : PyDateTime} (h : strptime s = some d) :
    validB d = true := by
  unfold strptime at h
  cases hr : rawParse s with
  | none => rw [hr] at h; simp at h
  | some x =>
    rw [hr] at h
    have h2 : (if validB x = true then some x else none) = some d := h
    by_cases hv : validB x = true
    · rw [if_pos hv] at h2
      simp only [Option.some.injEq] at h2
      rw [← h2]; exact hv
    · rw [if_neg hv] at h2; simp at h2

theorem removeHeadersInit_valid {b : RawBody} {hs : HeaderSet}
    (h : removeHeadersInit b = .ok hs) : validB hs.last_update_utc = true := by
  unfold removeHeadersInit at h
  cases hlu : b.last_update_utc with
  | none => simp [hlu] at h
  | some o =>
    cases o with
    | none => simp [hlu] at h
    | some s =>
      simp only [hlu] at h
      cases hstr : strptime s with
      | none => simp [hstr] at h
      | some d =>
        simp only [hstr] at h
        cases hh : b.headers with
        | none => simp [hh] at h
        | some o2 =>
          cases o2 with
          | none => simp [hh] at h
          | some l =>
            simp only [hh, Except.ok.injEq] at h
            rw [← h]
            exact strptime_valid hstr

theorem roundtrip_lines (mw : Str) (rh : HeaderSet)
    (h : validB rh.last_update_utc = true) :
    get_date_from_lines (write_yaml_lines mw rh) = rh.last_update_utc := by
  have h1 : ¬ (UPDATE_STRING <+: GENERATED_LINE) := by decide
  have h2 : UPDATE_STRING <+: (UPDATE_STRING ++ dtChars rh.last_update_utc) :=
    List.prefix_append _ _
  have h3 : strptime (pyStrip
      ((UPDATE_STRING ++ dtChars rh.last_update_utc).drop UPDATE_STRING.length)) =
      some rh.last_update_utc := by
    rw [show (UPDATE_STRING ++ dtChars rh.last_update_utc).drop UPDATE_STRING.length =
        dtChars rh.last_update_utc by simp]
    rw [pyStrip_dtChars, strptime_dtChars _ h]
  rw [write_yaml_lines]
  simp only [List.cons_append]
  rw [get_date_from_lines, if_neg h1, get_date_from_lines, if_pos h2, h3]

theorem fsGet_fsSet (fs : FS) (p : String) (v : List Str) :
    fsGet (fsSet fs p v) p = some v := by
  induction fs with
  | nil => simp [fsSet, fsGet]
  | cons hd tl ih =>
    obtain ⟨q, w⟩ := hd
    by_cases hq : q = p <;> simp [fsSet, fsGet, hq, ih]

theorem dtLe_refl (d : PyDateTime) : dtLe d d = true := by
  simp [dtLe]

theorem gd_eq_firstParsedMarker (lines : List Str) :
    get_date_from_lines lines = (firstParsedMarker lines).getD epochDT := by
  induction lines with
  | nil => rfl
  | cons l ls ih =>
    by_cases hp : UPDATE_STRING <+: l
    · cases hstr : strptime (pyStrip (l.drop UPDATE_STRING.length)) with
      | none =>
        rw [get_date_from_lines, if_pos hp, hstr, ih]
        simp [firstParsedMarker, List.filterMap_cons, hp, hstr]
      | some d =>
        rw [get_date_from_lines, if_pos hp, hstr]
        simp [firstParsedMarker, List.filterMap_cons, hp, hstr]
    · rw [get_date_from_lines, if_neg hp, ih]
      simp [firstParsedMarker, List.filterMap_cons, hp]

end Helpers

/-- C1: contrary to the claim, a run that overwrote the document and then
failed its restart step rolls back but still returns the success code 0 —
the very code returned by the success/no-op run and the success/updated
run — so the process-level exit signal does not distinguish failure from
either success outcome (the except block of `main` falls through to
`return 0`). -/
theorem claim1_failed_run_returns_success_code :
    (mainRun cfgRestart inpFailRestart exFsOld).rolledBack = true ∧
    (mainRun cfgRestart inpFailRestart exFsOld).origError = some PyError.calledProcessError ∧
    (mainRun cfgRestart inpFailRestart exFsOld).ret = Except.ok 0 ∧
    (mainRun cfgPlain inpOk exFsNew).ret = Except.ok 0 ∧
    (mainRun cfgPlain inpOk exFsOld).writes = 1 ∧
    (mainRun cfgPlain inpOk exFsOld).ret = Except.ok 0 := by
  refine ⟨by decide, by decide, rfl, rfl, by decide, rfl⟩

/-- C3: contrary to the claim, classification is not determined by the
record's full text: this record is a regression signal per the spec-side
classifier (timestamp 10 ≥ T0 = 0, text contains `ERR` and the middleware
identifier), yet the watcher's scan accepts it without raising, because
the check is skipped (`continue`) on continuation lines; the same marker
and identifier on the record's first line do raise. -/
theorem claim3_continuation_error_not_flagged :
    isRegressionSignal 0 (String.toList "mw") (String.toList "h.yml") recMultiline = true ∧
    scanLines 0 (String.toList "mw") (String.toList "h.yml") [] (recordLines recMultiline) =
      Except.ok (recordText recMultiline) ∧
    scanLines 0 (String.toList "mw") (String.toList "h.yml") []
      [⟨some 10, String.toList "ERR mw broke"⟩] = Except.error PyError.runtimeError := by
  refine ⟨by decide, rfl, rfl⟩

/-- C7 counterexample: on a path whose file does not exist the Local
Version Reader raises `FileNotFoundError` (there is no handler around
`open`), instead of returning the epoch sentinel as the claim states. -/
theorem claim7_counterexample :
    get_date_from_yaml_config [] "h.yml" = Except.error PyError.fileNotFound ∧
    get_date_from_yaml_config [] "h.yml" ≠ Except.ok epochDT := by
  refine ⟨rfl, fun h => nomatch h⟩

/-- C7 (amended): for every path whose file exists, the read never
raises: it returns the first marker line whose remainder parses, and the
epoch sentinel when no marker line parses or none exists. -/
theorem claim7_reader_on_existing_file (fs : FS) (p : String) (lines : List Str)
    (h : fsGet fs p = some lines) :
    get_date_from_yaml_config fs p =
      Except.ok ((firstParsedMarker lines).getD epochDT) := by
  unfold get_date_from_yaml_config
  rw [h]
  show Except.ok (get_date_from_lines lines) = _
  rw [gd_eq_firstParsedMarker]

theorem claim7_reader_on_existing_file_witness :
    fsGet exFsOld "h.yml" = some exOldLines ∧
    get_date_from_yaml_config exFsOld "h.yml" =
      Except.ok ((firstParsedMarker exOldLines).getD epochDT) :=
  ⟨by decide, claim7_reader_on_existing_file exFsOld "h.yml" exOldLines (by decide)⟩

/-- C8 counterexample: with an unparseable first marker line followed by
a parseable one, the reader returns the later line's timestamp, not the
epoch sentinel the claim requires. -/
theorem claim8_counterexample :
    get_date_from_lines badThenGood = (⟨2025, 1, 1, 0, 0, 0⟩ : PyDateTime) ∧
    get_date_from_lines badThenGood ≠ epochDT := by
  refine ⟨by decide, by decide⟩

/-- C8 (amended): the first marker line whose remainder parses determines
the result; a marker line whose remainder fails to parse is skipped (the
loop logs and continues) and later marker lines are still considered. -/
theorem claim8_first_parseable_marker_wins :
    (∀ (l : Str) (ls : List Str), UPDATE_STRING <+: l →
      strptime (pyStrip (l.drop UPDATE_STRING.length)) = none →
      get_date_from_lines (l :: ls) = get_date_from_lines ls) ∧
    (∀ (l : Str) (ls : List Str) (d : PyDateTime), UPDATE_STRING <+: l →
      strptime (pyStrip (l.drop UPDATE_STRING.length)) = some d →
      get_date_from_lines (l :: ls) = d) := by
  constructor
  · intro l ls hp hn
    rw [get_date_from_lines, if_pos hp, hn]
  · intro l ls d hp hs
    rw [get_date_from_lines, if_pos hp, hs]

theorem claim8_first_parseable_marker_wins_witness :
    get_date_from_lines badThenGood = get_date_from_lines (badThenGood.drop 1) ∧
    get_date_from_lines (badThenGood.drop 1) = (⟨2025, 1, 1, 0, 0, 0⟩ : PyDateTime) :=
  ⟨claim8_first_parseable_marker_wins.1 (String.toList "# Updated on: garbage")
      (badThenGood.drop 1) (by decide) (by decide),
   claim8_first_parseable_marker_wins.2 (String.toList "# Updated on: 2025-01-01 00:00:00")
      [] (⟨2025, 1, 1, 0, 0, 0⟩ : PyDateTime) (by decide) (by decide)⟩

/-- C4: if the document existed with content `C` and, after the new
document is written, the restart step fails or the log monitoring detects
a regression, then at the end of the run the content at the document path
is again exactly `C` (the written file is removed and the snapshot copied
back). -/
theorem claim4_rollback_exactness
    (cfg : Config) (inp : RunInput) (fs0 : FS) (C : List Str) (b : RawBody)
    (web : HeaderSet)
    (hcurl : inp.curl_missing = false)
    (hf : inp.fetched = some b)
    (hinit : removeHeadersInit b = Except.ok web)
    (hdoc : fsGet fs0 cfg.config_path = some C)
    (hold : dtLe web.last_update_utc (get_date_from_lines C) = false)
    (hfail : (cfg.restart_traefik = true ∧ inp.restart_ok = false) ∨
      ((cfg.restart_traefik = true → inp.restart_ok = true) ∧
        ∃ lp k, cfg.traefik_log = some lp ∧
          watchLoop inp.t0 cfg.middleware_header (pathName cfg.config_path)
            cfg.wait_for_errors_time inp.endTime inp.times inp.batches inp.fuel 0 [] =
            WatchOutcome.regression k)) :
    fsGet (mainRun cfg inp fs0).fs cfg.config_path = some C ∧
    (mainRun cfg inp fs0).rolledBack = true := by
  have hmain : mainRun cfg inp fs0 = runUpdate cfg inp fs0 web (some C) := by
    simp [mainRun, hcurl, hf, hinit, hdoc, hold]
  rw [hmain]
  unfold runUpdate
  rcases hfail with ⟨hr, hok⟩ | ⟨hfwd, lp, k, hlog, hwatch⟩
  · rw [hr, hok]
    simp [rollbackResult, fsGet_fsSet]
  · have hcond : (cfg.restart_traefik && !inp.restart_ok) = false := by
      cases hrt : cfg.restart_traefik
      · simp
      · simp [hfwd hrt]
    simp [hcond, hlog, hwatch, rollbackResult, fsGet_fsSet]

theorem claim4_rollback_exactness_witness :
    fsGet (mainRun cfgRestart inpFailRestart exFsOld).fs "h.yml" = some exOldLines ∧
    (mainRun cfgRestart inpFailRestart exFsOld).rolledBack = true :=
  claim4_rollback_exactness cfgRestart inpFailRestart exFsOld exOldLines exBody
    exWeb rfl rfl rfl (by decide) (by decide) (Or.inl ⟨rfl, rfl⟩)

/-- C5: (1) when the deployed document's embedded version is ≥ the
fetched version, the run returns success with zero writes and an
unchanged file system; (2) consequently, after a run that updates the
document successfully, an immediately following run against the same
fetched body performs zero writes, returns success and leaves the file
content identical. -/
theorem claim5_idempotence :
    (∀ (cfg : Config) (inp : RunInput) (fs0 : FS) (b : RawBody) (web : HeaderSet)
      (content : List Str),
      inp.curl_missing = false → inp.fetched = some b →
      removeHeadersInit b = Except.ok web →
      fsGet fs0 cfg.config_path = some content →
      dtLe web.last_update_utc (get_date_from_lines content) = true →
      (mainRun cfg inp fs0).ret = Except.ok 0 ∧ (mainRun cfg inp fs0).writes = 0 ∧
        (mainRun cfg inp fs0).fs = fs0) ∧
    (∀ (cfg : Config) (inp inp2 : RunInput) (fs0 : FS) (b : RawBody) (web : HeaderSet),
      inp.curl_missing = false → inp.fetched = some b →
      removeHeadersInit b = Except.ok web →
      (fsGet fs0 cfg.config_path = none ∨
        ∃ content, fsGet fs0 cfg.config_path = some content ∧
          dtLe web.last_update_utc (get_date_from_lines content) = false) →
      (cfg.restart_traefik = true → inp.restart_ok = true) →
      (∀ lp k, cfg.traefik_log = some lp →
        watchLoop inp.t0 cfg.middleware_header (pathName cfg.config_path)
          cfg.wait_for_errors_time inp.endTime inp.times inp.batches inp.fuel 0 [] ≠
          WatchOutcome.regression k) →
      inp2.curl_missing = false → inp2.fetched = some b →
      (mainRun cfg inp fs0).ret = Except.ok 0 ∧ (mainRun cfg inp fs0).writes = 1 ∧
      (mainRun cfg inp2 (mainRun cfg inp fs0).fs).ret = Except.ok 0 ∧
      (mainRun cfg inp2 (mainRun cfg inp fs0).fs).writes = 0 ∧
      (mainRun cfg inp2 (mainRun cfg inp fs0).fs).fs = (mainRun cfg inp fs0).fs) := by
  constructor
  · intro cfg inp fs0 b web content hcurl hf hinit hdoc hle
    refine ⟨?_, ?_, ?_⟩ <;> simp [mainRun, hcurl, hf, hinit, hdoc, hle]
  · intro cfg inp inp2 fs0 b web hcurl hf hinit hdec hrestart hwatch hcurl2 hf2
    have hcond : (cfg.restart_traefik && !inp.restart_ok) = false := by
      cases hrt : cfg.restart_traefik
      · simp
      · simp [hrestart hrt]
    have hupd : ∃ snap, mainRun cfg inp fs0 = runUpdate cfg inp fs0 web snap := by
      rcases hdec with hnone | ⟨content, hsome, hlt⟩
      · exact ⟨none, by simp [mainRun, hcurl, hf, hinit, hnone]⟩
      · exact ⟨some content, by simp [mainRun, hcurl, hf, hinit, hsome, hlt]⟩
    obtain ⟨snap, hmain⟩ := hupd
    have hrun : runUpdate cfg inp fs0 web snap =
        ⟨Except.ok 0,
         fsSet fs0 cfg.config_path (write_yaml_lines cfg.middleware_header web),
         1, snap.isSome, snap.isSome, false, none⟩ := by
      unfold runUpdate
      cases hlog : cfg.traefik_log with
      | none => simp [hcond, hlog]
      | some lp =>
        cases hw : watchLoop inp.t0 cfg.middleware_header (pathName cfg.config_path)
            cfg.wait_for_errors_time inp.endTime inp.times inp.batches inp.fuel 0 [] with
        | clean n => simp [hcond, hlog, hw]
        | regression k => exact absurd hw (hwatch lp k hlog)
        | fuelOut => simp [hcond, hlog, hw]
    rw [hmain, hrun]
    have hvalid := removeHeadersInit_valid hinit
    have hget : fsGet (fsSet fs0 cfg.config_path
        (write_yaml_lines cfg.middleware_header web)) cfg.config_path =
        some (write_yaml_lines cfg.middleware_header web) := fsGet_fsSet _ _ _
    have hgd : get_date_from_lines (write_yaml_lines cfg.middleware_header web) =
        web.last_update_utc := roundtrip_lines _ _ hvalid
    have hsecond : mainRun cfg inp2
        (fsSet fs0 cfg.config_path (write_yaml_lines cfg.middleware_header web)) =
        ⟨Except.ok 0,
         fsSet fs0 cfg.config_path (write_yaml_lines cfg.middleware_header web),
         0, true, false, false, none⟩ := by
      simp [mainRun, hcurl2, hf2, hinit, hget, hgd, dtLe_refl]
    refine ⟨rfl, rfl, ?_, ?_, ?_⟩ <;> simp [hsecond]

theorem claim5_idempotence_witness :
    (mainRun cfgPlain inpOk exFsNew).writes = 0 ∧
    (mainRun cfgPlain inpOk []).writes = 1 ∧
    (mainRun cfgPlain inpOk (mainRun cfgPlain inpOk []).fs).writes = 0 ∧
    (mainRun cfgPlain inpOk (mainRun cfgPlain inpOk []).fs).fs =
      (mainRun cfgPlain inpOk []).fs :=
  ⟨(claim5_idempotence.1 cfgPlain inpOk exFsNew exBody exWeb exNewLines
      rfl rfl rfl rfl (by decide)).2.1,
   (claim5_idempotence.2 cfgPlain inpOk inpOk [] exBody exWeb rfl rfl rfl
      (Or.inl rfl) (by decide) (fun lp k h => nomatch h) rfl rfl).2.1,
   (claim5_idempotence.2 cfgPlain inpOk inpOk [] exBody exWeb rfl rfl rfl
      (Or.inl rfl) (by decide) (fun lp k h => nomatch h) rfl rfl).2.2.2.1,
   (claim5_idempotence.2 cfgPlain inpOk inpOk [] exBody exWeb rfl rfl rfl
      (Or.inl rfl) (by decide) (fun lp k h => nomatch h) rfl rfl).2.2.2.2⟩

/-- C2 counterexample: a fetched body in which `last_update_utc` is
missing (key absent) raises `KeyError`, not `ValueError`; the exception
propagates out of `main` uncaught (the handler at line 147 catches only
`ValueError`), so the run does not terminate as a reported validation
failure — though it still touches no file. -/
theorem claim2_counterexample :
    removeHeadersInit exBodyMissingKey = Except.error PyError.keyError ∧
    removeHeadersInit exBodyMissingKey ≠ Except.error PyError.valueError ∧
    (mainRun cfgPlain inpMissingKey exFsOld).ret = Except.error PyError.keyError ∧
    (mainRun cfgPlain inpMissingKey exFsOld).fs = exFsOld ∧
    (mainRun cfgPlain inpMissingKey exFsOld).writes = 0 := by
  refine ⟨rfl, by decide, rfl, by decide, by decide⟩

/-- C2 (amended): a body whose `last_update_utc` or `headers` field is
null, or whose `last_update_utc` does not parse as
`YYYY-MM-DD HH:MM:SS`, fails validation with `ValueError`: the run
returns 1 with no file touched.  A body in which either field is missing
altogether instead raises `KeyError`, which escapes `main` (see the
counterexample). -/
theorem claim2_null_or_malformed_fails_validation
    (cfg : Config) (inp : RunInput) (fs : FS) (b : RawBody)
    (hcurl : inp.curl_missing = false) (hf : inp.fetched = some b)
    (hbad : b.last_update_utc = some none ∨
      (∃ s, b.last_update_utc = some (some s) ∧ strptime s = none) ∨
      (∃ s d, b.last_update_utc = some (some s) ∧ strptime s = some d ∧
        b.headers = some none)) :
    (mainRun cfg inp fs).ret = Except.ok 1 ∧ (mainRun cfg inp fs).fs = fs ∧
    (mainRun cfg inp fs).writes = 0 := by
  have hinit : removeHeadersInit b = Except.error PyError.valueError := by
    unfold removeHeadersInit
    rcases hbad with h | ⟨s, h1, h2⟩ | ⟨s, d, h1, h2, h3⟩
    · rw [h]
    · rw [h1]; simp [h2]
    · rw [h1]; simp [h2, h3]
  refine ⟨?_, ?_, ?_⟩ <;> simp [mainRun, hcurl, hf, hinit]

theorem claim2_null_or_malformed_fails_validation_witness :
    (mainRun cfgPlain inpNullDate exFsOld).ret = Except.ok 1 ∧
    (mainRun cfgPlain inpNullDate exFsOld).fs = exFsOld ∧
    (mainRun cfgPlain inpNullDate exFsOld).writes = 0 :=
  claim2_null_or_malformed_fails_validation cfgPlain inpNullDate exFsOld
    exBodyNullDate rfl rfl (Or.inl rfl)

/-- C6: with a zero monitoring window the Log Watcher performs exactly one
pass over the currently available log content and returns immediately: the
outcome is fully determined by the first batch of available lines, with a
pass count of one, whatever the clock samples, the deadline and the rest
of the configuration supply of observations. -/
theorem claim6_zero_wait (t0 : Int) (mw fname : Str) (endT : Int)
    (times : Nat → Int) (batches : Nat → List LogLine) (fuel : Nat) (msg : Str)
    (hfuel : 1 ≤ fuel) :
    watchLoop t0 mw fname 0 endT times batches fuel 0 msg =
      (match scanLines t0 mw fname msg (batches 0) with
       | Except.error _ => WatchOutcome.regression 1
       | Except.ok _ => WatchOutcome.clean 1) := by
  obtain ⟨fuel2, rfl⟩ : ∃ f, fuel = f + 1 := ⟨fuel - 1, by omega⟩
  rw [watchLoop]
  have hc : (decide (times 0 ≤ endT) || decide ((0 : Nat) = 0)) = true := by simp
  rw [hc]
  cases h : scanLines t0 mw fname msg (batches 0) <;> simp [h]

theorem claim6_zero_wait_witness :
    watchLoop 0 (String.toList "mw") (String.toList "h.yml") 0 (-5)
      (fun _ => 100) (fun _ => [⟨some 10, String.toList "ERR mw broke"⟩]) 1 0 [] =
      WatchOutcome.regression 1 :=
  claim6_zero_wait 0 (String.toList "mw") (String.toList "h.yml") (-5)
    (fun _ => 100) (fun _ => [⟨some 10, String.toList "ERR mw broke"⟩]) 1 []
    (by omega)

/-- C10 counterexample: the up-to-date no-op exit (line 163) creates the
scoped temporary backup area (line 157) but returns without invoking its
explicit release (`tmp_dir.cleanup()` at line 255 is not reached), so the
area is not released by the run before it returns on that exit path. -/
theorem claim10_counterexample :
    (mainRun cfgPlain inpOk exFsNew).tmpCreated = true ∧
    (mainRun cfgPlain inpOk exFsNew).tmpCleaned = false ∧
    (mainRun cfgPlain inpOk exFsNew).ret = Except.ok 0 := by
  refine ⟨by decide, by decide, rfl⟩

/-- C10 (amended): on every exit of a run that proceeded past the version
check with an existing document — the success exit and the
failure-with-rollback exit — the backup area is explicitly released
before the run returns; the up-to-date no-op exit instead returns without
explicit release (see the counterexample), leaving it to interpreter
finalization. -/
theorem claim10_cleanup_on_update_paths
    (cfg : Config) (inp : RunInput) (fs0 : FS) (b : RawBody) (web : HeaderSet)
    (content : List Str)
    (hcurl : inp.curl_missing = false) (hf : inp.fetched = some b)
    (hinit : removeHeadersInit b = Except.ok web)
    (hdoc : fsGet fs0 cfg.config_path = some content)
    (hold : dtLe web.last_update_utc (get_date_from_lines content) = false) :
    (mainRun cfg inp fs0).tmpCreated = true ∧
    (mainRun cfg inp fs0).tmpCleaned = true := by
  have hmain : mainRun cfg inp fs0 = runUpdate cfg inp fs0 web (some content) := by
    simp [mainRun, hcurl, hf, hinit, hdoc, hold]
  rw [hmain]
  unfold runUpdate
  by_cases hr : (cfg.restart_traefik && !inp.restart_ok) = true
  · rw [if_pos hr]
    exact ⟨rfl, rfl⟩
  · rw [if_neg hr]
    cases hlog : cfg.traefik_log with
    | none => exact ⟨rfl, rfl⟩
    | some lp =>
      cases hw : watchLoop inp.t0 cfg.middleware_header (pathName cfg.config_path)
          cfg.wait_for_errors_time inp.endTime inp.times inp.batches inp.fuel 0 [] with
      | clean n => simp [hw]
      | regression n => simp [hw, rollbackResult]
      | fuelOut => simp [hw]

theorem claim10_cleanup_on_update_paths_witness :
    (mainRun cfgRestart inpFailRestart exFsOld).tmpCreated = true ∧
    (mainRun cfgRestart inpFailRestart exFsOld).tmpCleaned = true :=
  claim10_cleanup_on_update_paths cfgRestart inpFailRestart exFsOld exBody
    ⟨⟨2025, 1, 1, 0, 0, 0⟩, [String.toList "X-A"]⟩ exOldLines rfl rfl (by decide)
    (by decide) (by decide)

/-- C9: rendering a `HeaderSet` with the Config Writer to a path and then
reading that path back with the Local Version Reader yields exactly the
original version timestamp (for any version that is a real
second-precision timestamp, i.e. one the program's own validation can
produce). -/
theorem claim9_round_trip (fs : FS) (p : String) (mw : Str) (rh : HeaderSet)
    (h : validB rh.last_update_utc = true) :
    get_date_from_yaml_config (fsSet fs p (write_yaml_lines mw rh)) p =
      Except.ok rh.last_update_utc := by
  unfold get_date_from_yaml_config
  rw [fsGet_fsSet]
  show Except.ok (get_date_from_lines (write_yaml_lines mw rh)) = _
  rw [roundtrip_lines mw rh h]

theorem claim9_round_trip_witness :
    validB (⟨2025, 1, 1, 0, 0, 0⟩ : PyDateTime) = true ∧
    get_date_from_yaml_config
      (fsSet [] "h.yml" (write_yaml_lines (String.toList "mw")
        ⟨⟨2025, 1, 1, 0, 0, 0⟩, [String.toList "A", String.toList "B"]⟩)) "h.yml" =
      Except.ok (⟨2025, 1, 1, 0, 0, 0⟩ : PyDateTime) :=
  ⟨by decide,
   claim9_round_trip [] "h.yml" (String.toList "mw")
     ⟨⟨2025, 1, 1, 0, 0, 0⟩, [String.toList "A", String.toList "B"]⟩ (by decide)⟩

end TraefikOwasp
